import Mathlib

/-!
# Verification of the Aetheria Chronicles game state machine

Shallow embedding of the game reducer, initial-state generator and turn
resolver from the repository (types.ts, App.tsx, services/geminiService.ts).

JavaScript numbers that the game logic treats as integers (hp, xp, gold,
quantities, coordinates, damage) are modelled as `Int`; item weights, which
can be fractional (`0.5`), are modelled as `Rat`.  TypeScript optional
fields are modelled as `Option`; JavaScript truthiness tests on them are
made explicit by the `jsOr`/`Truthy` helpers below.  String-keyed records
(`npcMemory`, the map `tiles` keyed by the string `"x,y"`, which is
injective on integer coordinates) are modelled as Lean functions to an
`Option` codomain, with object-spread updates as pointwise overrides.
-/

namespace Aetheria

/-! ## JavaScript truthiness helpers -/

/-- JS `o || d` for an optional string: `undefined` and `""` are falsy. -/
def jsOrStr (o : Option String) (d : String) : String :=
  match o with
  | some s => if s = "" then d else s
  | none => d

/-- JS `o || d` for an optional number: `undefined` and `0` are falsy. -/
def jsOrInt (o : Option Int) (d : Int) : Int :=
  match o with
  | some z => if z = 0 then d else z
  | none => d

/-- JS truthiness of an optional string. -/
def strTruthy (o : Option String) : Bool :=
  match o with
  | some s => s ≠ ""
  | none => false

/-- JS truthiness of an optional number. -/
def intTruthy (o : Option Int) : Bool :=
  match o with
  | some z => z ≠ 0
  | none => false

/-- JS truthiness of an optional boolean. -/
def boolTruthy (o : Option Bool) : Bool :=
  match o with
  | some b => b
  | none => false

/-- In-place update of the element at index `i`, as JS `arr[i].f = v`
on a shallow copy of the array (out-of-range indices leave the list
unchanged, which never happens at the call sites below). -/
def updateAt {α : Type} : List α → Nat → (α → α) → List α
  | [], _, _ => []
  | a :: t, 0, f => f a :: t
  | a :: t, n + 1, f => a :: updateAt t n f

/-! ## Data model (types.ts) -/

inductive ItemType
  | WEAPON | ARMOR | CONSUMABLE | KEY | ARTIFACT | TOOL
deriving DecidableEq, Repr

/-- `EquipmentSlot = 'hand' | 'body' | 'head' | 'accessory' | 'none'`.
The literal string `'none'` is a real slot value (and, being a non-empty
string, is truthy in JS); the constructor is named `slotNone` here. -/
inductive EquipmentSlot
  | hand | body | head | accessory | slotNone
deriving DecidableEq, Repr

/-- `ItemEffect`; the `stat` field is a string union in the source. -/
structure ItemEffect where
  stat : String
  value : Int
deriving DecidableEq, Repr

structure Item where
  id : String
  name : String
  description : String
  type : ItemType
  quantity : Int
  weight : Rat
  slot : Option EquipmentSlot := none
  effect : Option ItemEffect := none
  equipped : Option Bool := none
deriving DecidableEq, Repr

structure CharacterStats where
  hp : Int
  maxHp : Int
  xp : Int
  level : Int
  strength : Int
  dexterity : Int
  constitution : Int
  intelligence : Int
  wisdom : Int
  charisma : Int
  ac : Int
  supplies : Int
deriving DecidableEq, Repr

/-- `Partial<CharacterStats>`: every field optional; used as the
UPDATE_STATS payload, merged by object spread. -/
structure StatsPatch where
  hp : Option Int := none
  maxHp : Option Int := none
  xp : Option Int := none
  level : Option Int := none
  strength : Option Int := none
  dexterity : Option Int := none
  constitution : Option Int := none
  intelligence : Option Int := none
  wisdom : Option Int := none
  charisma : Option Int := none
  ac : Option Int := none
  supplies : Option Int := none
deriving DecidableEq, Repr

/-- `{ ...stats, ...patch }`: fields present in the patch override. -/
def mergeStats (st : CharacterStats) (p : StatsPatch) : CharacterStats where
  hp := p.hp.getD st.hp
  maxHp := p.maxHp.getD st.maxHp
  xp := p.xp.getD st.xp
  level := p.level.getD st.level
  strength := p.strength.getD st.strength
  dexterity := p.dexterity.getD st.dexterity
  constitution := p.constitution.getD st.constitution
  intelligence := p.intelligence.getD st.intelligence
  wisdom := p.wisdom.getD st.wisdom
  charisma := p.charisma.getD st.charisma
  ac := p.ac.getD st.ac
  supplies := p.supplies.getD st.supplies

structure Companion where
  name : String
  role : String
  status : String
deriving DecidableEq, Repr

/-- `Quest`; the `type` field is the string union `'MINI'|'MAIN'|'WORLD'`. -/
structure Quest where
  id : String
  title : String
  description : String
  type : String
  completed : Bool
deriving DecidableEq, Repr

inductive TileType
  | TOWN | FOREST | MOUNTAIN | DUNGEON | PLAINS | WATER | INN | UNKNOWN
deriving DecidableEq, Repr

structure Tile where
  type : TileType
  visited : Bool
deriving DecidableEq, Repr

/-- `WorldMap.tiles : Record<string, Tile>` keyed by the string
`"x,y"`; the key encoding is injective on integer coordinates, so the
record is modelled as a function from the coordinate pair. -/
def TileMap : Type := Int × Int → Option Tile

/-- `{ ...tiles, [key]: v }`: pointwise override at one key. -/
def TileMap.setTile (m : TileMap) (k : Int × Int) (v : Tile) : TileMap :=
  fun k' => if k' = k then some v else m k'

structure WorldMap where
  tiles : TileMap

structure Coordinates where
  x : Int
  y : Int
deriving DecidableEq, Repr

inductive Sender
  | dm | player | system
deriving DecidableEq, Repr

structure LogEntry where
  id : String
  sender : Sender
  content : String
  timestamp : Int
deriving DecidableEq, Repr

structure CombatState where
  isActive : Bool
  enemyName : Option String := none
  enemyHp : Option Int := none
  enemyMaxHp : Option Int := none
  enemyDescription : Option String := none
  enemyType : Option String := none
  roundLog : Option (List String) := none
deriving DecidableEq, Repr

/-- `Record<string, string>` modelled as a partial function. -/
def NpcMemory : Type := String → Option String

/-- `{ ...old, ...patch }` on string records: patch keys override. -/
def NpcMemory.merge (old patch : NpcMemory) : NpcMemory :=
  fun k => match patch k with
    | some v => some v
    | none => old k

/-- `GameState.player`; the source field `class` is a Lean keyword and
is rendered `charClass`. -/
structure Player where
  name : String
  charClass : String
  reputation : Int
  gold : Int
  stats : CharacterStats
  inventory : List Item
  companions : List Companion
  activeQuests : List Quest
  journal : List String
  position : Coordinates

structure World where
  locationName : String
  locationDescription : String
  timeOfDay : String
  dangerLevel : Int
  npcMemory : NpcMemory
  mapData : WorldMap

structure GameState where
  id : String
  player : Player
  world : World
  combat : CombatState
  gameLog : List LogEntry
  turnCount : Int
  isGameOver : Bool

/-! ## Initial state (App.tsx, `createInitialState`) -/

/-- `createInitialState(characterName)`.  `Date.now()` is passed in as
the explicit parameter `now` (it only feeds the save id and the initial
log timestamp). -/
def createInitialState (now : Int) (characterName : String) : GameState where
  id := toString now
  player :=
    { name := characterName
      charClass := "Adventurer"
      reputation := 0
      gold := 10
      stats :=
        { hp := 12, maxHp := 12, xp := 0, level := 1
          strength := 12, dexterity := 12, constitution := 12
          intelligence := 10, wisdom := 10, charisma := 10
          ac := 11, supplies := 3 }
      inventory :=
        [ { id := "1", name := "Iron Shortsword", description := "Standard issue.",
            type := ItemType.WEAPON, quantity := 1, weight := 2,
            slot := some EquipmentSlot.hand,
            effect := some { stat := "strength", value := 0 }, equipped := some true },
          { id := "2", name := "Leather Jerkin", description := "Stiff but sturdy.",
            type := ItemType.ARMOR, quantity := 1, weight := 5,
            slot := some EquipmentSlot.body,
            effect := some { stat := "ac", value := 1 }, equipped := some true },
          { id := "3", name := "Quest Log", description := "Empty pages waiting for glory.",
            type := ItemType.TOOL, quantity := 1, weight := (1 : Rat) / 2 } ]
      companions := []
      activeQuests := []
      journal := ["Arrived at the Gilded Griffin Inn."]
      position := { x := 0, y := 0 } }
  world :=
    { locationName := "The Gilded Griffin Inn"
      locationDescription := "A warm, bustling tavern smelling of roasted boar and ale."
      timeOfDay := "Evening"
      dangerLevel := 0
      npcMemory := fun k =>
        if k = "Barnaby" then some "Friendly"
        else if k = "Stranger" then some "Watchful"
        else none
      mapData :=
        { tiles := fun k =>
            if k = (0, 0) then some { type := TileType.INN, visited := true } else none } }
  combat := { isActive := false }
  gameLog :=
    [ { id := "init", sender := Sender.dm,
        content := "Welcome to the Gilded Griffin Inn, " ++ characterName ++
          ". You’ve arrived looking for work and glory.",
        timestamp := now } ]
  turnCount := 0
  isGameOver := false

/-! ## Reducer actions (App.tsx, `type Action`) -/

inductive Action
  | loadState (payload : GameState)
  | addLog (payload : LogEntry)
  | updateStats (payload : StatsPatch)
  | updateGold (payload : Int)
  | addItem (payload : Item)
  | removeItem (payload : String)
  | dropItem (payload : String)
  | equipItem (payload : String)
  | unequipItem (payload : String)
  | setLocation (name : String) (desc : String)
  | updateNpcMemory (payload : NpcMemory)
  | updateReputation (payload : Int)
  | addJournal (payload : String)
  | updateQuests (newQuest : Option Quest) (completedId : Option String)
  | updateMap (direction : String) (terrain : TileType)
  | startCombat (name : String) (hp : Int) (desc : String) (etype : Option String)
  | updateCombat (damage : Int)
  | endCombat
  | gameOver
  | restart

def Action.isLoadState : Action → Bool
  | .loadState _ => true
  | _ => false

/-! ## The reducer (App.tsx, `gameReducer`)

`gameReducerFull` returns the new state together with a flag that is
`true` exactly when control falls through the `switch` to the auto-save
block at the bottom of the reducer with an action other than GAME_OVER
(the `localStorage` persistence trigger); early `return`s inside the
`switch` skip that block. -/

def gameReducerFull (state : GameState) (action : Action) : GameState × Bool :=
  match action with
  | .loadState payload =>
      -- All GameState fields are required in TS, so spreading the full
      -- payload over `createInitialState(payload.player.name || "Hero")`
      -- overrides every default; only the explicit `gold || 0` guard
      -- survives the collapse.  Early return: no persistence.
      ({ payload with
          player := { payload.player with gold := jsOrInt (some payload.player.gold) 0 } },
        false)
  | .restart => (state, false)
  | .addLog payload =>
      ({ state with gameLog := state.gameLog ++ [payload] }, true)
  | .updateStats payload =>
      ({ state with player :=
          { state.player with stats := mergeStats state.player.stats payload } }, true)
  | .updateGold payload =>
      ({ state with player :=
          { state.player with gold := max 0 (state.player.gold + payload) } }, true)
  | .addItem payload =>
      match state.player.inventory.findIdx? (fun i => i.name = payload.name) with
      | some idx =>
          let newInventory := updateAt state.player.inventory idx
            (fun i => { i with quantity := i.quantity + payload.quantity })
          ({ state with player := { state.player with inventory := newInventory } }, true)
      | none =>
          let newInventory := state.player.inventory ++ [{ payload with equipped := some false }]
          ({ state with player := { state.player with inventory := newInventory } }, true)
  | .removeItem payload =>
      match state.player.inventory.findIdx? (fun i => i.name = payload) with
      | none => (state, false)
      | some idx =>
          match state.player.inventory[idx]? with
          | none => (state, false)  -- unreachable: findIdx? indices are in bounds
          | some item =>
              let newInv :=
                if item.quantity > 1 then
                  updateAt state.player.inventory idx
                    (fun i => { i with quantity := i.quantity - 1 })
                else state.player.inventory.eraseIdx idx
              ({ state with player := { state.player with inventory := newInv } }, true)
  | .dropItem payload =>
      match state.player.inventory.findIdx? (fun i => i.name = payload) with
      | none => (state, false)
      | some idx =>
          let newInv := state.player.inventory.eraseIdx idx
          ({ state with player := { state.player with inventory := newInv } }, true)
  | .equipItem payload =>
      match state.player.inventory.findIdx? (fun i => i.name = payload) with
      | none => (state, false)
      | some idx =>
          match state.player.inventory[idx]? with
          | none => (state, false)  -- unreachable: findIdx? indices are in bounds
          | some item =>
              match item.slot with
              | none => (state, false)  -- `if (!item.slot) return state`
              | some _ =>
                  let mapped := state.player.inventory.map fun i =>
                    if i.slot = item.slot ∧ boolTruthy i.equipped then
                      { i with equipped := some false }
                    else i
                  let newInv := updateAt mapped idx (fun i => { i with equipped := some true })
                  ({ state with player := { state.player with inventory := newInv } }, true)
  | .unequipItem payload =>
      match state.player.inventory.findIdx? (fun i => i.name = payload) with
      | none => (state, false)
      | some idx =>
          let newInv := updateAt state.player.inventory idx
            (fun i => { i with equipped := some false })
          ({ state with player := { state.player with inventory := newInv } }, true)
  | .setLocation name desc =>
      ({ state with world :=
          { state.world with locationName := name, locationDescription := desc } }, true)
  | .updateNpcMemory payload =>
      ({ state with world :=
          { state.world with npcMemory := state.world.npcMemory.merge payload } }, true)
  | .updateReputation payload =>
      -- `(state.player.reputation || 0) + action.payload`
      ({ state with player :=
          { state.player with
              reputation := jsOrInt (some state.player.reputation) 0 + payload } }, true)
  | .addJournal payload =>
      ({ state with player :=
          { state.player with journal := state.player.journal ++ [payload] } }, true)
  | .updateQuests newQuest completedId =>
      let quests0 := state.player.activeQuests
      let quests1 := match newQuest with
        | some q => quests0 ++ [q]
        | none => quests0
      let quests2 :=
        if strTruthy completedId then
          quests1.map fun q =>
            if q.id = completedId.getD "" then { q with completed := true } else q
        else quests1
      ({ state with player := { state.player with activeQuests := quests2 } }, true)
  | .updateMap direction terrain =>
      let x0 := state.player.position.x
      let y0 := state.player.position.y
      let y1 := if direction = "NORTH" then y0 + 1 else y0
      let y2 := if direction = "SOUTH" then y1 - 1 else y1
      let x1 := if direction = "EAST" then x0 + 1 else x0
      let x2 := if direction = "WEST" then x1 - 1 else x1
      ({ state with
          player := { state.player with position := { x := x2, y := y2 } }
          world := { state.world with mapData :=
            { tiles := state.world.mapData.tiles.setTile (x2, y2)
                { type := terrain, visited := true } } } }, true)
  | .startCombat name hp desc etype =>
      ({ state with combat :=
          { isActive := true, enemyName := some name, enemyHp := some hp,
            enemyMaxHp := some hp, enemyDescription := some desc,
            enemyType := etype, roundLog := some [] } }, true)
  | .updateCombat damage =>
      -- `if (!state.combat.isActive || !state.combat.enemyHp) return state`
      if state.combat.isActive = false ∨ intTruthy state.combat.enemyHp = false then
        (state, false)
      else
        ({ state with combat :=
            { state.combat with
                enemyHp := some (max 0 (state.combat.enemyHp.getD 0 - damage)) } }, true)
  | .endCombat => ({ state with combat := { isActive := false } }, true)
  | .gameOver => ({ state with isGameOver := true }, false)

/-- The pure state transition of the reducer. -/
def gameReducer (state : GameState) (action : Action) : GameState :=
  (gameReducerFull state action).1

/-! ## Narrator responses (types.ts `AIResponse`) -/

structure AIResponse where
  narrative : String
  hp_change : Int
  xp_gained : Int
  supplies_consumed : Int
  gold_change : Option Int := none
  items_added : List Item := []
  items_removed_names : List String := []
  new_location_name : Option String := none
  new_location_description : Option String := none
  updated_npc_memories : Option NpcMemory := none
  reputation_change : Option Int := none
  new_quest : Option Quest := none
  quest_completed_id : Option String := none
  new_journal_entry : Option String := none
  suggested_actions : List String := []
  is_game_over : Option Bool := none
  movement_direction : Option String := none
  current_terrain_type : Option TileType := none
  combat_start : Option Bool := none
  enemy_name : Option String := none
  enemy_desc : Option String := none
  enemy_type : Option String := none
  enemy_hp : Option Int := none
  enemy_damage_taken : Option Int := none
  combat_ended : Option Bool := none

/-! ## The turn resolver (App.tsx, `handleAction`)

React batches the dispatches of one `handleAction` call: every payload is
computed from the pre-turn state captured in the closure (`state`), while
the dispatched actions are applied to the store one after the other.
`turnActions` lists, in dispatch order, the actions of the successful
branch of `handleAction` for pre-turn state `s`, typed action `text`,
narrator response `r` and clock value `now` (`Date.now()`). -/

def turnActions (s : GameState) (text : String) (r : AIResponse) (now : Int) : List Action :=
  let st := s.player.stats
  let newHp := min st.maxHp (max 0 (st.hp + r.hp_change))
  let newSupplies := max 0 (st.supplies - r.supplies_consumed)
  let newXp := st.xp + r.xp_gained
  let lvlUp : Bool := decide (newXp ≥ st.level * 100)
  let newLevel := if lvlUp then st.level + 1 else st.level
  let newMaxHp := if lvlUp then st.maxHp + 5 else st.maxHp
  [Action.addLog ⟨toString now, Sender.player, text, now⟩,
    Action.addLog ⟨toString (now + 1), Sender.dm, r.narrative, now⟩]
  ++ (if lvlUp then
        [Action.addLog ⟨toString (now + 2), Sender.system,
          "LEVEL UP! Level " ++ toString newLevel ++ ".", now⟩]
      else [])
  ++ [Action.updateStats
        { hp := some newHp
          supplies := some newSupplies
          xp := some newXp
          level := some newLevel
          maxHp := some newMaxHp }]
  ++ (if intTruthy r.gold_change then [Action.updateGold (r.gold_change.getD 0)] else [])
  ++ r.items_added.map Action.addItem
  ++ r.items_removed_names.map Action.removeItem
  ++ (if strTruthy r.new_location_name then
        [Action.setLocation (r.new_location_name.getD "")
          (jsOrStr r.new_location_description "")]
      else [])
  ++ (if strTruthy r.movement_direction || (r.current_terrain_type).isSome then
        [Action.updateMap (jsOrStr r.movement_direction "NONE")
          ((r.current_terrain_type).getD TileType.UNKNOWN)]
      else [])
  ++ (if (r.updated_npc_memories).isSome then
        [Action.updateNpcMemory ((r.updated_npc_memories).getD (fun _ => none))]
      else [])
  ++ (if intTruthy r.reputation_change then
        [Action.updateReputation (r.reputation_change.getD 0)]
      else [])
  ++ (if (r.new_quest).isSome || strTruthy r.quest_completed_id then
        [Action.updateQuests r.new_quest r.quest_completed_id]
      else [])
  ++ (if strTruthy r.new_journal_entry then
        [Action.addJournal (r.new_journal_entry.getD "")]
      else [])
  ++ (if boolTruthy r.combat_start then
        [Action.startCombat (jsOrStr r.enemy_name "Unknown Enemy") (jsOrInt r.enemy_hp 10)
          (jsOrStr r.enemy_desc "A menacing foe.") r.enemy_type]
      else [])
  ++ (if intTruthy r.enemy_damage_taken then
        [Action.updateCombat (r.enemy_damage_taken.getD 0)]
      else [])
  ++ (if boolTruthy r.combat_ended then [Action.endCombat] else [])
  ++ (if newHp ≤ 0 ∨ boolTruthy r.is_game_over then
        [Action.gameOver,
          Action.addLog ⟨toString (now + 3), Sender.system, "GAME OVER.", now⟩]
      else [])

/-- The state after the successful branch of one `handleAction` call. -/
def resolveTurn (s : GameState) (text : String) (r : AIResponse) (now : Int) : GameState :=
  (turnActions s text r now).foldl gameReducer s

/-- The `catch` branch of `handleAction`: the player echo log was already
dispatched before the `try`, then the failure log is appended. -/
def resolveTurnFailure (s : GameState) (text : String) (now : Int) : GameState :=
  let s1 := gameReducer s (Action.addLog ⟨toString now, Sender.player, text, now⟩)
  gameReducer s1 (Action.addLog ⟨toString now, Sender.system, "API Error.", now⟩)

/-- `handleAction` with its entry guard:
`if ((!actionText.trim() && !state.combat.isActive) || isProcessing || cooldown
|| state.isGameOver) return;`.  The component flags `isProcessing` and
`cooldown` are passed in explicitly. -/
def handleAction (isProcessing cooldown : Bool) (s : GameState) (text : String)
    (r : AIResponse) (now : Int) : GameState :=
  if (text.trim = "" ∧ s.combat.isActive = false) ∨ isProcessing = true ∨ cooldown = true
      ∨ s.isGameOver = true then s
  else resolveTurn s text r now

/-! ## Narrator failure responses (services/geminiService.ts)

`generateGameTurn` catches every network/parse/rate-limit error itself and
resolves with one of the following neutral responses instead of
rejecting, so the resolver's `catch` branch is not reached on those
failures. -/

/-- The response returned when the caught error message signals a rate
limit (`429`/`quota`/`RESOURCE_EXHAUSTED`). -/
def rateLimitResponse : AIResponse where
  narrative := "You are breathless. The world spins. You must rest. (Rate Limit - Wait 6s)"
  hp_change := 0
  xp_gained := 0
  supplies_consumed := 0
  suggested_actions := ["Wait"]
  is_game_over := some false
  movement_direction := some "NONE"
  current_terrain_type := some TileType.UNKNOWN

/-- The response returned for every other caught error, with the error
message interpolated into the narrative. -/
def genericErrorResponse (errorMessage : String) : AIResponse where
  narrative := "The Weave is tangled. (Error: " ++ errorMessage ++ ")"
  hp_change := 0
  xp_gained := 0
  supplies_consumed := 0
  suggested_actions := ["Wait"]
  is_game_over := some false
  movement_direction := some "NONE"
  current_terrain_type := some TileType.UNKNOWN

/-! ## Reachable states

The states the application can put in the store, starting from
`createInitialState`: the New-Adventure path (`startGame` dispatches
LOAD_STATE of a fresh initial state), the turn resolver (any narrator
response, any prefix of its dispatch sequence, so that the invariant is
established after every single dispatched action), the resolver's catch
branch, and the direct inventory handlers (`handleDropItem`,
`handleEquipItem`, `handleUnequipItem`).  Loading an externally supplied
save (`loadGame`) is the separate load/restart escape path. -/

inductive Reachable : GameState → Prop
  | init (now : Int) (name : String) : Reachable (createInitialState now name)
  | startOver {s : GameState} (now : Int) (name : String) : Reachable s →
      Reachable (gameReducer s (Action.loadState (createInitialState now name)))
  | turnPrefix {s : GameState} (text : String) (r : AIResponse) (now : Int)
      (l : List Action) : Reachable s → l <+: turnActions s text r now →
      Reachable (l.foldl gameReducer s)
  | turnFailure {s : GameState} (text : String) (now : Int) : Reachable s →
      Reachable (resolveTurnFailure s text now)
  | dropStep {s : GameState} (n : String) : Reachable s →
      Reachable (gameReducer s (Action.dropItem n))
  | equipStep {s : GameState} (n : String) : Reachable s →
      Reachable (gameReducer s (Action.equipItem n))
  | unequipStep {s : GameState} (n : String) : Reachable s →
      Reachable (gameReducer s (Action.unequipItem n))

/-! ## Predicates and fixtures used by the statements -/

/-- The stats invariant of the spec: `0 ≤ hp ≤ maxHp` and `supplies ≥ 0`. -/
def InvStats (st : CharacterStats) : Prop :=
  0 ≤ st.hp ∧ st.hp ≤ st.maxHp ∧ 0 ≤ st.supplies

/-- Does the reducer case of this action write `player.stats`? -/
def Action.touchesStats : Action → Bool
  | .updateStats _ => true
  | .loadState _ => true
  | _ => false

/-- An action that keeps `InvStats` over any state satisfying it: it
either leaves the stats untouched, or it is an UPDATE_STATS whose patch
forces the invariant on any stats record it is merged into. -/
def StatsOK (a : Action) : Prop :=
  a.touchesStats = false ∨
    ∃ p, a = Action.updateStats p ∧ ∀ st, InvStats (mergeStats st p)

/-- One compass step, written after the words of the spec:
`NORTH`→y+1, `SOUTH`→y-1, `EAST`→x+1, `WEST`→x-1, anything else
(including `NONE`)→no change.  To be compared against the sequential
`if` chain of the UPDATE_MAP reducer case. -/
def specCompassStep (d : String) (p : Int × Int) : Int × Int :=
  if d = "NORTH" then (p.1, p.2 + 1)
  else if d = "SOUTH" then (p.1, p.2 - 1)
  else if d = "EAST" then (p.1 + 1, p.2)
  else if d = "WEST" then (p.1 - 1, p.2)
  else p

/-- A system log entry announcing a level-up (`LEVEL UP! Level n.`).
The prefix test is phrased on the character lists so that it evaluates
inside the kernel. -/
def isLevelUpLog (e : LogEntry) : Bool :=
  e.sender == Sender.system && List.isPrefixOf "LEVEL UP!".data e.content.data

/-- A narrator response granting 250 xp and nothing else. -/
def xpGrant250 : AIResponse where
  narrative := "You triumph."
  hp_change := 0
  xp_gained := 250
  supplies_consumed := 0

/-- A one-torch item payload for the ADD_ITEM stacking scenario. -/
def torchOne : Item where
  id := "t1"
  name := "Torch"
  description := "A burning brand."
  type := ItemType.TOOL
  quantity := 1
  weight := 1

/-- A two-torch item payload of the same name. -/
def torchTwo : Item := { torchOne with quantity := 2 }

/-- A fresh initial state used by the concrete scenarios. -/
def rin0 : GameState := createInitialState 0 "Rin"

/-- The Leather Jerkin entry of the fresh inventory (index 1). -/
def jerkin : Item where
  id := "2"
  name := "Leather Jerkin"
  description := "Stiff but sturdy."
  type := ItemType.ARMOR
  quantity := 1
  weight := 5
  slot := some EquipmentSlot.body
  effect := some { stat := "ac", value := 1 }
  equipped := some true

/-! ## Helper lemmas -/

/-- Every reducer case other than UPDATE_STATS and LOAD_STATE leaves the
player stats untouched. -/
theorem stats_preserved (s : GameState) (a : Action) (h : a.touchesStats = false) :
    (gameReducer s a).player.stats = s.player.stats := by
  cases a <;> simp [Action.touchesStats] at h <;>
    simp only [gameReducer, gameReducerFull] <;> (repeat' split) <;> rfl

/-- Every reducer case other than LOAD_STATE preserves `isGameOver = true`. -/
theorem isGameOver_preserved (s : GameState) (a : Action) (hGO : s.isGameOver = true)
    (hL : a.isLoadState = false) : (gameReducer s a).isGameOver = true := by
  cases a <;> simp [Action.isLoadState] at hL <;>
    simp only [gameReducer, gameReducerFull] <;> (repeat' split) <;> (try simp) <;>
      exact hGO

/-- `updateAt` does not move other indices. -/
theorem updateAt_getElem?_ne {α : Type} (g : α → α) :
    ∀ (l : List α) (i j : Nat), j ≠ i → (updateAt l i g)[j]? = l[j]? := by
  intro l
  induction l with
  | nil => intro i j _; rfl
  | cons a t ih =>
    intro i j hne
    cases i with
    | zero =>
      cases j with
      | zero => exact absurd rfl hne
      | succ j' => simp [updateAt]
    | succ i' =>
      cases j with
      | zero => simp [updateAt]
      | succ j' =>
        simp only [updateAt, List.getElem?_cons_succ]
        exact ih i' j' (fun h => hne (by rw [h]))

/-- Editing one position changes a `countP` by at most one. -/
theorem countP_updateAt_le {α : Type} (p : α → Bool) (g : α → α) :
    ∀ (l : List α) (i : Nat), (updateAt l i g).countP p ≤ l.countP p + 1 := by
  intro l
  induction l with
  | nil => intro i; simp [updateAt]
  | cons a t ih =>
    intro i
    cases i with
    | zero =>
      simp only [updateAt, List.countP_cons]
      have := ih 0
      split <;> split <;> omega
    | succ i' =>
      simp only [updateAt, List.countP_cons]
      have := ih i'
      omega

/-! ## C6: GAME_OVER is a one-way transition -/

/-- C6.  Once `isGameOver = true`, every finite sequence of reducer
actions other than LOAD_STATE leaves `isGameOver = true`. -/
theorem gameOver_one_way (s : GameState) (l : List Action) (hGO : s.isGameOver = true)
    (hl : ∀ a ∈ l, a.isLoadState = false) :
    (l.foldl gameReducer s).isGameOver = true := by
  induction l generalizing s with
  | nil => exact hGO
  | cons a t ih =>
    simp only [List.foldl_cons]
    exact ih (gameReducer s a)
      (isGameOver_preserved s a hGO (hl a (List.mem_cons_self a t)))
      (fun b hb => hl b (List.mem_cons_of_mem a hb))

/-- Witness for C6: a concrete game-over state stays game-over under a
concrete gameplay action sequence. -/
theorem gameOver_one_way_witness :
    (([Action.endCombat, Action.updateGold 5]).foldl gameReducer
      { rin0 with isGameOver := true }).isGameOver = true :=
  gameOver_one_way _ _ rfl
    (by
      intro a ha
      rcases List.mem_cons.mp ha with rfl | ha2
      · rfl
      · rcases List.mem_cons.mp ha2 with rfl | ha3
        · rfl
        · exact absurd ha3 (List.not_mem_nil a))

/-! ## C10: a zero-HP enemy is treated like an absent one -/

/-- C10.  With combat active but `enemyHp` equal to `0` or `undefined`,
UPDATE_COMBAT returns the state unchanged: the falsy guard treats a zero
HP exactly like a missing one. -/
theorem updateCombat_dead_enemy_noop (s : GameState) (d : Int)
    (_hA : s.combat.isActive = true)
    (h0 : s.combat.enemyHp = none ∨ s.combat.enemyHp = some 0) :
    gameReducer s (Action.updateCombat d) = s := by
  have ht : intTruthy s.combat.enemyHp = false := by
    rcases h0 with h | h <;> simp [h, intTruthy]
  simp [gameReducer, gameReducerFull, ht]

/-- Witness for C10 at a concrete active-combat state with a 0-HP enemy. -/
theorem updateCombat_dead_enemy_noop_witness :
    gameReducer { rin0 with combat := { isActive := true, enemyHp := some 0 } }
        (Action.updateCombat 5) =
      { rin0 with combat := { isActive := true, enemyHp := some 0 } } :=
  updateCombat_dead_enemy_noop _ 5 rfl (Or.inr rfl)

/-! ## C9: UPDATE_COMBAT with inactive combat is a persistence-skipping no-op -/

/-- C9.  (i) With combat inactive, UPDATE_COMBAT returns the input state
unchanged and skips the auto-save block that (ii) ordinary actions such
as ADD_LOG reach; (iii) with combat active and a defined non-negative
`enemyHp = h`, a damage `d ≥ 0` yields `enemyHp = max 0 (h - d)`. -/
theorem updateCombat_inactive_noop :
    (∀ (s : GameState) (d : Int), s.combat.isActive = false →
      gameReducerFull s (Action.updateCombat d) = (s, false)) ∧
    (∀ (s : GameState) (e : LogEntry), (gameReducerFull s (Action.addLog e)).2 = true) ∧
    (∀ (s : GameState) (d h : Int), s.combat.isActive = true →
      s.combat.enemyHp = some h → 0 ≤ h → 0 ≤ d →
      (gameReducer s (Action.updateCombat d)).combat.enemyHp = some (max 0 (h - d))) := by
  refine ⟨?_, ?_, ?_⟩
  · intro s d hI
    simp [gameReducerFull, hI]
  · intro s e; rfl
  · intro s d h hA hHp hh hd
    by_cases hz : h = 0
    · subst hz
      have hmax : max 0 (0 - d) = 0 := max_eq_left (by omega)
      simp [gameReducer, gameReducerFull, hHp, intTruthy, hmax]
      omega
    · simp [gameReducer, gameReducerFull, hA, hHp, intTruthy, hz]

/-- Witness for C9: inactive combat short-circuit and an active-combat
damage application, both at concrete states. -/
theorem updateCombat_inactive_noop_witness :
    gameReducerFull rin0 (Action.updateCombat 5) = (rin0, false) ∧
    (gameReducer { rin0 with combat := { isActive := true, enemyHp := some 7 } }
      (Action.updateCombat 5)).combat.enemyHp = some (max 0 (7 - 5)) :=
  ⟨updateCombat_inactive_noop.1 rin0 5 rfl,
    updateCombat_inactive_noop.2.2 _ 5 7 rfl rfl (by decide) (by decide)⟩

/-! ## C8: UPDATE_MAP moves one compass step and writes one tile -/

/-- C8.  UPDATE_MAP moves the position by exactly one grid step in the
named compass direction (`NONE` and unknown strings: no change), writes
`{type: terrain, visited: true}` at the resulting coordinate and leaves
every other tile unchanged; concretely, from position (0,0) a
NORTH/FOREST update yields position (0,1), tile (0,1) = FOREST/visited,
tile (0,0) untouched. -/
theorem updateMap_one_step :
    (∀ (s : GameState) (d : String) (t : TileType),
      ((gameReducer s (Action.updateMap d t)).player.position.x,
          (gameReducer s (Action.updateMap d t)).player.position.y) =
        specCompassStep d (s.player.position.x, s.player.position.y) ∧
      (∀ k : Int × Int, (gameReducer s (Action.updateMap d t)).world.mapData.tiles k =
        if k = specCompassStep d (s.player.position.x, s.player.position.y) then
          some { type := t, visited := true }
        else s.world.mapData.tiles k)) ∧
    ((gameReducer rin0 (Action.updateMap "NORTH" TileType.FOREST)).player.position =
        { x := 0, y := 1 } ∧
      (gameReducer rin0 (Action.updateMap "NORTH" TileType.FOREST)).world.mapData.tiles
          (0, 1) = some { type := TileType.FOREST, visited := true } ∧
      (gameReducer rin0 (Action.updateMap "NORTH" TileType.FOREST)).world.mapData.tiles
          (0, 0) = rin0.world.mapData.tiles (0, 0)) := by
  constructor
  · intro s d t
    by_cases h1 : d = "NORTH"
    · subst h1; constructor
      · simp [gameReducer, gameReducerFull, specCompassStep]
      · intro k; simp [gameReducer, gameReducerFull, specCompassStep, TileMap.setTile]
    · by_cases h2 : d = "SOUTH"
      · subst h2; constructor
        · simp [gameReducer, gameReducerFull, specCompassStep]
        · intro k; simp [gameReducer, gameReducerFull, specCompassStep, TileMap.setTile]
      · by_cases h3 : d = "EAST"
        · subst h3; constructor
          · simp [gameReducer, gameReducerFull, specCompassStep]
          · intro k; simp [gameReducer, gameReducerFull, specCompassStep, TileMap.setTile]
        · by_cases h4 : d = "WEST"
          · subst h4; constructor
            · simp [gameReducer, gameReducerFull, specCompassStep]
            · intro k
              simp [gameReducer, gameReducerFull, specCompassStep, TileMap.setTile]
          · constructor
            · simp [gameReducer, gameReducerFull, specCompassStep, h1, h2, h3, h4]
            · intro k
              simp [gameReducer, gameReducerFull, specCompassStep, TileMap.setTile,
                h1, h2, h3, h4]
  · refine ⟨by decide, by decide, by decide⟩

/-! ## C7: ADD_ITEM stacks by item name -/

/-- C7.  ADD_ITEM increments the quantity of the first same-named entry
when one exists, else appends the payload with `equipped = false`; on a
fresh state, adding Torch x1 then Torch x2 leaves exactly one Torch
entry with quantity 3. -/
theorem addItem_stacks_by_name :
    (∀ (s : GameState) (it : Item) (idx : Nat),
      s.player.inventory.findIdx? (fun i => i.name = it.name) = some idx →
      (gameReducer s (Action.addItem it)).player.inventory =
        updateAt s.player.inventory idx
          (fun i => { i with quantity := i.quantity + it.quantity })) ∧
    (∀ (s : GameState) (it : Item),
      s.player.inventory.findIdx? (fun i => i.name = it.name) = none →
      (gameReducer s (Action.addItem it)).player.inventory =
        s.player.inventory ++ [{ it with equipped := some false }]) ∧
    (((gameReducer (gameReducer rin0 (Action.addItem torchOne)) (Action.addItem torchTwo)
        ).player.inventory.filter (fun i => i.name == "Torch")).map
        (fun i => (i.quantity, i.equipped)) = [(3, some false)]) := by
  refine ⟨?_, ?_, ?_⟩
  · intro s it idx h
    simp [gameReducer, gameReducerFull, h]
  · intro s it h
    simp [gameReducer, gameReducerFull, h]
  · decide

/-- Witness for C7: the stacking branch applied at the concrete Torch
scenario (the Torch sits at index 3 after the first ADD_ITEM). -/
theorem addItem_stacks_by_name_witness :
    (gameReducer (gameReducer rin0 (Action.addItem torchOne)) (Action.addItem torchTwo)
      ).player.inventory =
      updateAt (gameReducer rin0 (Action.addItem torchOne)).player.inventory 3
        (fun i => { i with quantity := i.quantity + torchTwo.quantity }) :=
  addItem_stacks_by_name.1 _ torchTwo 3 (by decide)

/-! ## C4: is the state frozen once isGameOver is set? -/

/-- Counterexample to C4: the reducer itself has no `isGameOver` guard;
dispatching DROP_ITEM("Quest Log") against a game-over state changes its
inventory, so the resulting state is not equal to the input state. -/
theorem frozen_state_cex :
    gameReducer { rin0 with isGameOver := true } (Action.dropItem "Quest Log") ≠
      { rin0 with isGameOver := true } :=
  fun h => absurd (congrArg (fun st => st.player.inventory.length) h) (by decide)

/-- C4 as amended: after game over the turn resolver refuses to act
(`handleAction` returns the state unchanged), and no gameplay action
other than LOAD_STATE can reset `isGameOver`; but reducer actions
dispatched directly (inventory drops and the like) still mutate the
state. -/
theorem frozen_state_amended :
    (∀ (p c : Bool) (s : GameState) (text : String) (r : AIResponse) (now : Int),
      s.isGameOver = true → handleAction p c s text r now = s) ∧
    (∀ (s : GameState) (a : Action), s.isGameOver = true → a.isLoadState = false →
      (gameReducer s a).isGameOver = true) := by
  refine ⟨?_, ?_⟩
  · intro p c s text r now hGO
    simp [handleAction, hGO]
  · exact fun s a hGO hL => isGameOver_preserved s a hGO hL

/-- Witness for the amended C4 at a concrete game-over state. -/
theorem frozen_state_amended_witness :
    handleAction false false { rin0 with isGameOver := true } "Look" rateLimitResponse 0 =
      { rin0 with isGameOver := true } :=
  frozen_state_amended.1 false false _ "Look" rateLimitResponse 0 rfl

/-! ## C2: the level-up rule is an if, not a while -/

/-- Counterexample to C2: a turn granting 250 xp from xp=0, level=1 does
not produce level 3, +10 maxHp and two level-up log entries. -/
theorem multi_level_jump_cex :
    ¬((resolveTurn rin0 "attack" xpGrant250 0).player.stats.level = 3 ∧
      (resolveTurn rin0 "attack" xpGrant250 0).player.stats.maxHp =
        rin0.player.stats.maxHp + 10 ∧
      (resolveTurn rin0 "attack" xpGrant250 0).gameLog.countP isLevelUpLog = 2) := by
  decide

/-- C2 as amended: the level-up rule is applied once per resolved turn
(an `if`, not a `while`), so a 250-xp turn from xp=0, level=1 yields
level 2, maxHp increased by 5, xp 250 and exactly one level-up log
entry. -/
theorem single_level_up :
    (resolveTurn rin0 "attack" xpGrant250 0).player.stats.level = 2 ∧
    (resolveTurn rin0 "attack" xpGrant250 0).player.stats.xp = 250 ∧
    (resolveTurn rin0 "attack" xpGrant250 0).player.stats.maxHp =
      rin0.player.stats.maxHp + 5 ∧
    (resolveTurn rin0 "attack" xpGrant250 0).gameLog.countP isLevelUpLog = 1 := by
  decide

/-! ## C5: EQUIP_ITEM keeps slot exclusivity -/

/-- C5.  EQUIP_ITEM(n) is a no-op when no inventory entry bears the name
or when the named item declares no slot; otherwise at most one item with
the equipped slot value ends up `equipped = true`, and every other item
of that slot that was equipped before is unequipped. -/
theorem equipItem_slot_exclusive (s : GameState) (n : String) :
    (s.player.inventory.findIdx? (fun i => i.name = n) = none →
      gameReducer s (Action.equipItem n) = s) ∧
    (∀ (idx : Nat) (item : Item),
      s.player.inventory.findIdx? (fun i => i.name = n) = some idx →
      s.player.inventory[idx]? = some item → item.slot = none →
      gameReducer s (Action.equipItem n) = s) ∧
    (∀ (idx : Nat) (item : Item) (sl : EquipmentSlot),
      s.player.inventory.findIdx? (fun i => i.name = n) = some idx →
      s.player.inventory[idx]? = some item → item.slot = some sl →
      ((gameReducer s (Action.equipItem n)).player.inventory.countP
          (fun i => i.slot == some sl && i.equipped == some true)) ≤ 1 ∧
      (∀ (j : Nat) (itemJ : Item), j ≠ idx →
        s.player.inventory[j]? = some itemJ → itemJ.slot = some sl →
        boolTruthy itemJ.equipped = true →
        ((gameReducer s (Action.equipItem n)).player.inventory[j]?.map
          (fun i => i.equipped)) = some (some false))) := by
  refine ⟨?_, ?_, ?_⟩
  · intro h
    simp [gameReducer, gameReducerFull, h]
  · intro idx item hf hg hs
    simp [gameReducer, gameReducerFull, hf, hg, hs]
  · intro idx item sl hf hg hs
    have hred : (gameReducer s (Action.equipItem n)).player.inventory =
        updateAt (s.player.inventory.map fun i =>
            if i.slot = item.slot ∧ boolTruthy i.equipped then
              { i with equipped := some false }
            else i)
          idx (fun i => { i with equipped := some true }) := by
      simp [gameReducer, gameReducerFull, hf, hg, hs]
    constructor
    · rw [hred]
      have h0 : (s.player.inventory.map fun i =>
          if i.slot = item.slot ∧ boolTruthy i.equipped then
            { i with equipped := some false }
          else i).countP (fun i => i.slot == some sl && i.equipped == some true) = 0 := by
        rw [List.countP_eq_zero]
        intro a ha
        rcases List.mem_map.mp ha with ⟨b, _, rfl⟩
        by_cases hcond : b.slot = item.slot ∧ boolTruthy b.equipped
        · simp [hcond]
        · rw [if_neg hcond]
          by_cases hbs : b.slot = item.slot
          · have hbe : boolTruthy b.equipped = false := by
              rcases Bool.eq_false_or_eq_true (boolTruthy b.equipped) with h | h
              · exact absurd ⟨hbs, h⟩ hcond
              · exact h
            cases hbeq : b.equipped with
            | none => simp [hbeq]
            | some bb =>
              have : bb = false := by
                rw [hbeq] at hbe
                simpa [boolTruthy] using hbe
              simp [hbeq, this]
          · have : b.slot ≠ some sl := by rw [← hs]; exact hbs
            simp [this]
      calc (updateAt (s.player.inventory.map fun i =>
              if i.slot = item.slot ∧ boolTruthy i.equipped then
                { i with equipped := some false }
              else i)
            idx (fun i => { i with equipped := some true })).countP
              (fun i => i.slot == some sl && i.equipped == some true)
          ≤ (s.player.inventory.map fun i =>
              if i.slot = item.slot ∧ boolTruthy i.equipped then
                { i with equipped := some false }
              else i).countP (fun i => i.slot == some sl && i.equipped == some true) + 1 :=
            countP_updateAt_le _ _ _ _
        _ = 1 := by rw [h0]
    · intro j itemJ hj hgj hslj heqj
      rw [hred, updateAt_getElem?_ne _ _ idx j hj, List.getElem?_map, hgj]
      have hcond : itemJ.slot = item.slot ∧ boolTruthy itemJ.equipped := by
        constructor
        · rw [hslj, hs]
        · exact heqj
      simp [hcond]

/-- Witness for C5: equipping the Leather Jerkin on a fresh state leaves
at most one equipped body-slot item. -/
theorem equipItem_slot_exclusive_witness :
    ((gameReducer rin0 (Action.equipItem "Leather Jerkin")).player.inventory.countP
      (fun i => i.slot == some EquipmentSlot.body && i.equipped == some true)) ≤ 1 :=
  ((equipItem_slot_exclusive rin0 "Leather Jerkin").2.2 1 jerkin EquipmentSlot.body
    (by decide) (by decide) rfl).1

/-! ## C3: what a failed narrator call really leaves behind -/

/-- Counterexample to C3: on a fresh state (current tile `INN` at (0,0)),
a rate-limited turn overwrites the current map tile with `UNKNOWN`,
because the error response carries `movement_direction: "NONE"` — a
truthy string — so UPDATE_MAP is still dispatched.  The map tile is not
left unchanged. -/
theorem failed_turn_map_cex :
    (resolveTurn rin0 "Look" rateLimitResponse 0).world.mapData.tiles (0, 0) ≠
      rin0.world.mapData.tiles (0, 0) := by
  decide

/-- C3 as amended: a failed narrator call resolves with a neutral error
response (rate-limited or generic), so the turn leaves stats, gold,
inventory, position, quests, journal, reputation, combat, location, NPC
memory and the game-over flag unchanged — provided the stats invariant
holds, hp is positive and no level-up is already pending — appends the
player echo and a dm entry carrying the failure narrative to the log,
but overwrites the tile at the current position with
`{type: UNKNOWN, visited: true}`. -/
theorem failed_turn_amended (s : GameState) (text msg : String) (r : AIResponse)
    (now : Int)
    (hr : r = rateLimitResponse ∨ r = genericErrorResponse msg)
    (hhp : 0 < s.player.stats.hp)
    (hle : s.player.stats.hp ≤ s.player.stats.maxHp)
    (hsup : 0 ≤ s.player.stats.supplies)
    (hxp : s.player.stats.xp < s.player.stats.level * 100) :
    (resolveTurn s text r now).player.stats = s.player.stats ∧
    (resolveTurn s text r now).player.gold = s.player.gold ∧
    (resolveTurn s text r now).player.inventory = s.player.inventory ∧
    (resolveTurn s text r now).player.position = s.player.position ∧
    (resolveTurn s text r now).player.activeQuests = s.player.activeQuests ∧
    (resolveTurn s text r now).player.journal = s.player.journal ∧
    (resolveTurn s text r now).player.reputation = s.player.reputation ∧
    (resolveTurn s text r now).combat = s.combat ∧
    (resolveTurn s text r now).isGameOver = s.isGameOver ∧
    (resolveTurn s text r now).world.locationName = s.world.locationName ∧
    (resolveTurn s text r now).world.npcMemory = s.world.npcMemory ∧
    (resolveTurn s text r now).gameLog = s.gameLog ++
      [⟨toString now, Sender.player, text, now⟩,
        ⟨toString (now + 1), Sender.dm, r.narrative, now⟩] ∧
    (∀ k : Int × Int, (resolveTurn s text r now).world.mapData.tiles k =
      if k = (s.player.position.x, s.player.position.y) then
        some { type := TileType.UNKNOWN, visited := true }
      else s.world.mapData.tiles k) := by
  have key : ∀ narr : String,
      (r = { narrative := narr, hp_change := 0, xp_gained := 0, supplies_consumed := 0,
              suggested_actions := ["Wait"], is_game_over := some false,
              movement_direction := some "NONE",
              current_terrain_type := some TileType.UNKNOWN }) →
      turnActions s text r now =
        [Action.addLog ⟨toString now, Sender.player, text, now⟩,
          Action.addLog ⟨toString (now + 1), Sender.dm, narr, now⟩,
          Action.updateStats
            { hp := some s.player.stats.hp
              supplies := some s.player.stats.supplies
              xp := some s.player.stats.xp
              level := some s.player.stats.level
              maxHp := some s.player.stats.maxHp },
          Action.updateMap "NONE" TileType.UNKNOWN] := by
    intro narr hrr
    subst hrr
    have hlv : ¬(s.player.stats.level * 100 ≤ s.player.stats.xp) := by omega
    have hnew0 : s.player.stats.maxHp ⊓ (0 ⊔ s.player.stats.hp) = s.player.stats.hp := by
      rw [max_eq_right hhp.le, min_eq_right hle]
    have hsup0 : (0 : Int) ⊔ s.player.stats.supplies = s.player.stats.supplies :=
      max_eq_right hsup
    simp [turnActions, intTruthy, strTruthy, boolTruthy, jsOrStr, hlv, hnew0, hsup0,
      not_le.mpr hhp]
  have hTA : turnActions s text r now =
      [Action.addLog ⟨toString now, Sender.player, text, now⟩,
        Action.addLog ⟨toString (now + 1), Sender.dm, r.narrative, now⟩,
        Action.updateStats
          { hp := some s.player.stats.hp
            supplies := some s.player.stats.supplies
            xp := some s.player.stats.xp
            level := some s.player.stats.level
            maxHp := some s.player.stats.maxHp },
        Action.updateMap "NONE" TileType.UNKNOWN] := by
    rcases hr with rfl | rfl
    · exact key _ rfl
    · exact key _ rfl
  rw [resolveTurn, hTA]
  refine ⟨rfl, rfl, rfl, rfl, rfl, rfl, rfl, rfl, rfl, rfl, rfl, ?_, fun k => rfl⟩
  show s.gameLog ++ [_] ++ [_] = _
  simp

/-- Witness for the amended C3 at a fresh state and a rate-limit
failure: stats and gold are untouched. -/
theorem failed_turn_amended_witness :
    (resolveTurn rin0 "Look" rateLimitResponse 0).player.stats = rin0.player.stats ∧
    (resolveTurn rin0 "Look" rateLimitResponse 0).player.gold = rin0.player.gold :=
  ⟨(failed_turn_amended rin0 "Look" "" rateLimitResponse 0 (Or.inl rfl) (by decide)
      (by decide) (by decide) (by decide)).1,
    (failed_turn_amended rin0 "Look" "" rateLimitResponse 0 (Or.inl rfl) (by decide)
      (by decide) (by decide) (by decide)).2.1⟩

/-! ## C1: the clamped stats invariant over reachable states -/

/-- Membership in an if-guarded segment of a dispatch list. -/
theorem mem_ite_nil {α : Type} {c : Prop} [Decidable c] (x : α) (l : List α) :
    (x ∈ if c then l else []) ↔ c ∧ x ∈ l := by
  split <;> rename_i h <;> simp [h]

/-- A five-field stats patch with clamped hp and supplies keeps the
invariant no matter which stats record it is merged into. -/
theorem patch_invariant (h m xp lv sp : Int) (h0 : 0 ≤ h) (hm : h ≤ m) (hsp : 0 ≤ sp) :
    ∀ st : CharacterStats,
      InvStats (mergeStats st
        { hp := some h, supplies := some sp, xp := some xp,
          level := some lv, maxHp := some m }) := by
  intro st
  exact ⟨h0, hm, hsp⟩

/-- Folding stats-safe actions preserves the stats invariant. -/
theorem invStats_foldl (l : List Action) : ∀ (s : GameState),
    InvStats s.player.stats → (∀ a ∈ l, StatsOK a) →
    InvStats ((l.foldl gameReducer s).player.stats) := by
  induction l with
  | nil => exact fun s h _ => h
  | cons a t ih =>
    intro s hs hl
    simp only [List.foldl_cons]
    refine ih (gameReducer s a) ?_ (fun b hb => hl b (List.mem_cons_of_mem a hb))
    rcases hl a (List.mem_cons_self a t) with hok | ⟨p, rfl, hp⟩
    · rw [stats_preserved s a hok]
      exact hs
    · exact hp s.player.stats

/-- Every action dispatched by the resolver is stats-safe: the only
UPDATE_STATS in the turn carries the clamped five-field patch. -/
theorem turnActions_statsOK (s : GameState) (text : String) (r : AIResponse) (now : Int)
    (hInv : InvStats s.player.stats) :
    ∀ a ∈ turnActions s text r now, StatsOK a := by
  obtain ⟨h1, h2, h3⟩ := hInv
  intro a ha
  simp only [turnActions, List.mem_append, List.mem_cons, List.mem_singleton,
    List.mem_map, List.not_mem_nil, mem_ite_nil, or_false, false_or] at ha
  rcases ha with
    (((((((((((((((rfl | rfl) | ⟨-, rfl⟩) | rfl) | ⟨-, rfl⟩) | ⟨it, -, rfl⟩) |
      ⟨nm, -, rfl⟩) | ⟨-, rfl⟩) | ⟨-, rfl⟩) | ⟨-, rfl⟩) | ⟨-, rfl⟩) | ⟨-, rfl⟩) |
      ⟨-, rfl⟩) | ⟨-, rfl⟩) | ⟨-, rfl⟩) | ⟨-, rfl⟩) | ⟨-, (rfl | rfl)⟩
  · exact Or.inl rfl
  · exact Or.inl rfl
  · exact Or.inl rfl
  · refine Or.inr ⟨_, rfl, ?_⟩
    refine patch_invariant _ _ _ _ _ ?_ ?_ ?_
    · exact le_min (by omega) (le_max_left _ _)
    · have := min_le_left s.player.stats.maxHp
        (max 0 (s.player.stats.hp + r.hp_change))
      split <;> omega
    · exact le_max_left _ _
  all_goals exact Or.inl rfl

/-- C1.  Along every state the application can reach — fresh starts,
every prefix of every resolved turn, failed turns, and the direct
inventory handlers — the player stats satisfy `0 ≤ hp ≤ maxHp` and
`0 ≤ supplies`; the clamping lives at the resolver call site, not in the
reducer, which applies a raw UPDATE_STATS patch unclamped. -/
theorem reachable_stats_invariant :
    (∀ s : GameState, Reachable s →
      0 ≤ s.player.stats.hp ∧ s.player.stats.hp ≤ s.player.stats.maxHp ∧
        0 ≤ s.player.stats.supplies) ∧
    (gameReducer rin0 (Action.updateStats { hp := some (-5) })).player.stats.hp = -5 := by
  constructor
  · intro s h
    induction h with
    | init now name =>
      refine ⟨?_, ?_, ?_⟩ <;> norm_num [createInitialState]
    | startOver now name _ ih =>
      refine ⟨?_, ?_, ?_⟩ <;>
        norm_num [gameReducer, gameReducerFull, createInitialState]
    | turnPrefix text r now l _ hpre ih =>
      exact invStats_foldl l _ ih
        (fun a ha => turnActions_statsOK _ text r now ih a (hpre.subset ha))
    | turnFailure text now _ ih =>
      have e1 : ∀ (s' : GameState) (e : LogEntry),
          (gameReducer s' (Action.addLog e)).player.stats = s'.player.stats :=
        fun s' e => stats_preserved s' _ rfl
      simp only [resolveTurnFailure, e1]
      exact ih
    | dropStep n _ ih =>
      rw [show ∀ s' : GameState, (gameReducer s' (Action.dropItem n)).player.stats =
        s'.player.stats from fun s' => stats_preserved s' _ rfl]
      exact ih
    | equipStep n _ ih =>
      rw [show ∀ s' : GameState, (gameReducer s' (Action.equipItem n)).player.stats =
        s'.player.stats from fun s' => stats_preserved s' _ rfl]
      exact ih
    | unequipStep n _ ih =>
      rw [show ∀ s' : GameState, (gameReducer s' (Action.unequipItem n)).player.stats =
        s'.player.stats from fun s' => stats_preserved s' _ rfl]
      exact ih
  · rfl

/-- Witness for C1 at the initial state, reachable by construction. -/
theorem reachable_stats_invariant_witness :
    0 ≤ rin0.player.stats.hp ∧ rin0.player.stats.hp ≤ rin0.player.stats.maxHp ∧
      0 ≤ rin0.player.stats.supplies :=
  reachable_stats_invariant.1 rin0 (Reachable.init 0 "Rin")

end Aetheria
